import Mathlib

/-
Verification of the inbound authentication-and-reporting pipeline of an
SMTP server (SPF / DKIM / ARC / DMARC verification, policy evaluation,
rate-limited failure reports, aggregate reports).

The repository ships only a process bootstrap plus one integration test for
this pipeline, so the pipeline itself is modelled from the specification:
every definition below carrying a doc comment starting with
`Modelled from the spec:` is a shallow embedding of a component the
specification describes (Verifier, Policy Evaluator, Rate Limiter, Report
Builder, Session Controller).
-/

set_option autoImplicit false

namespace Stalwart

/-- SPF verification result taxonomy. -/
inductive SpfResult
  | pass
  | fail
  | softfail
  | neutral
  | none
  | temperror
  | permerror
deriving DecidableEq

/-- Qualifier of the terminal `all` mechanism of an SPF record:
`+all`, `-all`, `~all`, `?all`. -/
inductive SpfQualifier
  | plus
  | minus
  | tilde
  | question
deriving DecidableEq

/-- An SPF record: the ip4 mechanisms preceding the terminal `all` mechanism,
the qualifier of that terminal mechanism, and the optional `ra=` report
address local part. -/
structure SpfRecord where
  ip4 : List String
  allQualifier : SpfQualifier
  ra : Option String
deriving DecidableEq

/-- Modelled from the spec: the SPF record algorithm of the Verifier
(missing from the shipped sources). Mechanism evaluation short-circuits on
the first matching mechanism; an IP matching no preceding mechanism falls
through to the terminal `all` mechanism, whose qualifier decides the
result (`-all` yields fail, `~all` softfail, `?all` neutral). -/
def checkSpfIp (record : SpfRecord) (ip : String) : SpfResult :=
  if record.ip4.contains ip then SpfResult.pass
  else
    match record.allQualifier with
    | SpfQualifier.plus => SpfResult.pass
    | SpfQualifier.minus => SpfResult.fail
    | SpfQualifier.tilde => SpfResult.softfail
    | SpfQualifier.question => SpfResult.neutral

/-- Outcome of one DNS lookup as surfaced by the resolution layer. -/
inductive DnsLookup (α : Type)
  | found (record : α)
  | notFound
  | tempError
  | permError
deriving DecidableEq

/-- Modelled from the spec: SPF result of the Verifier for one identity,
combining the record lookup outcome with the record algorithm. A missing
record yields `none`, temporary resolution failures `temperror`,
permanent ones `permerror`. -/
def spfResultOfLookup (lk : DnsLookup SpfRecord) (ip : String) : SpfResult :=
  match lk with
  | DnsLookup.found record => checkSpfIp record ip
  | DnsLookup.notFound => SpfResult.none
  | DnsLookup.tempError => SpfResult.temperror
  | DnsLookup.permError => SpfResult.permerror

/-- Tagged DKIM failure reason. -/
inductive DkimFailure
  | badSignature
  | badBodyHash
  | missingKey
  | revokedKey
  | syntaxError
deriving DecidableEq

/-- Verdict for one DKIM-Signature header: pass, a tagged failure, or a
temporary DNS error while resolving the signer key. -/
inductive DkimVerdict
  | pass
  | fail (reason : DkimFailure)
  | temperror
deriving DecidableEq

/-- Verification result for one DKIM-Signature header: the signing domain
and the verdict. -/
structure DkimOutput where
  domain : String
  verdict : DkimVerdict
deriving DecidableEq

/-- Whether one DKIM verification result is a pass. -/
def DkimOutput.isPass (o : DkimOutput) : Bool :=
  match o.verdict with
  | DkimVerdict.pass => true
  | _ => false

/-- Whether one DKIM verification result is a temporary DNS error. -/
def DkimOutput.isTempError (o : DkimOutput) : Bool :=
  match o.verdict with
  | DkimVerdict.temperror => true
  | _ => false

/-- Whether some DKIM signature of the message verified. -/
def hasDkimPass (l : List DkimOutput) : Bool :=
  l.any DkimOutput.isPass

/-- Whether some DKIM signature of the message hit a temporary DNS error. -/
def hasDkimTemp (l : List DkimOutput) : Bool :=
  l.any DkimOutput.isTempError

/-- First failing DKIM signature of the message: signer domain and reason. -/
def firstDkimFailure : List DkimOutput → Option (String × DkimFailure)
  | [] => Option.none
  | o :: rest =>
    match o.verdict with
    | DkimVerdict.fail reason => some (o.domain, reason)
    | _ => firstDkimFailure rest

/-- Modelled from the spec: the `Auth-Failure:` header tag the Report
Builder uses for a DKIM failure reason (`bodyhash` for a bad body hash,
`revoked` for a revoked key, ...). -/
def dkimFailureTag : DkimFailure → String
  | DkimFailure.badSignature => "signature"
  | DkimFailure.badBodyHash => "bodyhash"
  | DkimFailure.missingKey => "dns"
  | DkimFailure.revokedKey => "revoked"
  | DkimFailure.syntaxError => "signature"

/-- ARC chain verdict: absent chain, valid chain, broken chain. -/
inductive ArcResult
  | none
  | pass
  | fail
deriving DecidableEq

/-- DMARC verification result. -/
inductive DmarcResult
  | none
  | pass
  | fail
deriving DecidableEq

/-- DMARC policy requested by the record (`p=` / `sp=` tags). -/
inductive DmarcPolicy
  | none
  | quarantine
  | reject
deriving DecidableEq

/-- Identifier alignment mode (`aspf=` / `adkim=` tags). -/
inductive AlignmentMode
  | strict
  | relaxed
deriving DecidableEq

/-- Per-check verify strategy from the per-domain configuration. -/
inductive VerifyStrategy
  | strict
  | relaxed
  | disabled
deriving DecidableEq

/-- A DMARC record: policy, subdomain policy, alignment modes, report
addresses (`rua=` aggregate, `ruf=` failure) and the `fo=` tag. -/
structure DmarcRecord where
  p : DmarcPolicy
  sp : Option DmarcPolicy
  aspf : AlignmentMode
  adkim : AlignmentMode
  rua : List String
  ruf : List String
  fo : Nat
deriving DecidableEq

/-- A `_report._domainkey` record of a DKIM signing domain: the `ra=`
report address local part. -/
structure DomainKeyReport where
  ra : String
deriving DecidableEq

/-- Modelled from the spec: the organizational domain of a DNS name,
used for relaxed identifier alignment (the last two labels of the name). -/
def orgDomain (d : String) : String :=
  let labels := d.splitOn "."
  if labels.length ≤ 2 then d
  else String.intercalate "." (labels.drop (labels.length - 2))

/-- Modelled from the spec: identifier alignment between the `From` domain
and an authenticated domain — strict is an exact match, relaxed an
organizational-domain match. -/
def aligned (mode : AlignmentMode) (fromDomain authDomain : String) : Bool :=
  match mode with
  | AlignmentMode.strict => fromDomain == authDomain
  | AlignmentMode.relaxed => orgDomain fromDomain == orgDomain authDomain

/-- Kinds of failure report the pipeline can generate. ARC failures have no
report kind: only SPF, DKIM and DMARC failures trigger failure reports. -/
inductive ReportKind
  | spf
  | dkim
  | dmarc
deriving DecidableEq

/-- A pending obligation to emit a failure report: report kind, rate-limit
target domain, resolved report address, the `Auth-Failure:` tag, and extra
rendered body lines. -/
structure ReportEvent where
  kind : ReportKind
  domain : String
  address : String
  tag : String
  extraLines : List String
deriving DecidableEq

/-- A message handed to the outbound delivery queue: its recipient list and
its rendered lines. -/
structure QueuedMessage where
  recipients : List String
  lines : List String
deriving DecidableEq

/-- Modelled from the spec: the failure-report rendering of the Report
Builder (missing from the shipped sources). The report address is the last
recipient; the body carries `Feedback-Type: auth-failure` and an
`Auth-Failure:` tag naming the failed check. -/
def renderReport (ev : ReportEvent) : QueuedMessage :=
  { recipients := [ev.address]
  , lines :=
      ["To: " ++ ev.address, "Feedback-Type: auth-failure",
       "Auth-Failure: " ++ ev.tag] ++ ev.extraLines }

/-- Rate-limit configuration for one report kind: `requests` per `period`. -/
structure Rate where
  requests : Nat
  period : Nat
deriving DecidableEq

/-- Token-bucket state for one (domain, report-kind) key. -/
structure TokenBucket where
  tokens : Nat
  lastRefill : Nat
deriving DecidableEq

/-- Shared table of token buckets keyed by (domain, report-kind). -/
structure ReportState where
  buckets : List ((String × ReportKind) × TokenBucket)
deriving DecidableEq

/-- The report state at process start: no bucket exists yet. -/
def emptyReportState : ReportState := ⟨[]⟩

/-- Bucket stored under a key, if any. -/
def lookupBucket :
    List ((String × ReportKind) × TokenBucket) → (String × ReportKind) →
      Option TokenBucket
  | [], _ => Option.none
  | kv :: rest, key => if kv.1 = key then some kv.2 else lookupBucket rest key

/-- Store a bucket under a key, replacing any previous one. -/
def insertBucket :
    List ((String × ReportKind) × TokenBucket) → (String × ReportKind) →
      TokenBucket → List ((String × ReportKind) × TokenBucket)
  | [], key, b => [(key, b)]
  | kv :: rest, key, b =>
    if kv.1 = key then (key, b) :: rest else kv :: insertBucket rest key b

/-- Modelled from the spec: bucket refill of the Rate Limiter, at period
granularity — once a full period has elapsed since the last refill the
bucket is refilled to capacity. -/
def refillBucket (rate : Rate) (b : TokenBucket) (now : Nat) : TokenBucket :=
  if b.lastRefill + rate.period ≤ now then ⟨rate.requests, now⟩ else b

/-- Modelled from the spec: `allow` of the Rate Limiter (missing from the
shipped sources). A key without a bucket gets a fresh bucket and is
allowed; otherwise the bucket is refilled and one token consumed if
available; a denial leaves the bucket untouched. -/
def rateLimitAllow (rate : Rate) (stored : Option TokenBucket) (now : Nat) :
    Bool × TokenBucket :=
  match stored with
  | Option.none => (true, ⟨rate.requests - 1, now⟩)
  | some b =>
    let b' := refillBucket rate b now
    if 0 < b'.tokens then (true, ⟨b'.tokens - 1, b'.lastRefill⟩) else (false, b)

/-- Modelled from the spec: submission of one failure report through the
Rate Limiter and the Report Builder. A denied report instance is dropped
permanently — nothing is queued and the state is unchanged. -/
def submitReport (rate : Rate) (st : ReportState) (now : Nat)
    (ev : ReportEvent) : Option QueuedMessage × ReportState :=
  let key := (ev.domain, ev.kind)
  let res := rateLimitAllow rate (lookupBucket st.buckets key) now
  if res.1 then (some (renderReport ev), ⟨insertBucket st.buckets key res.2⟩)
  else (Option.none, st)

/-- Submission of a list of pending report events in order, threading the
rate-limiter state; returns the messages actually queued. -/
def submitAll (rate : Rate) (st : ReportState) (now : Nat) :
    List ReportEvent → List QueuedMessage × ReportState
  | [] => ([], st)
  | ev :: rest =>
    let first := submitReport rate st now ev
    let more := submitAll rate first.2 now rest
    (first.1.toList ++ more.1, more.2)

/-- Accept / temp-fail / reject decision of the Policy Evaluator. -/
inductive Decision
  | accept
  | tempFail
  | reject
deriving DecidableEq

/-- An SMTP reply: status code plus enhanced status code triple. -/
structure SmtpReply where
  code : Nat
  e1 : Nat
  e2 : Nat
  e3 : Nat
deriving DecidableEq

/-- Modelled from the spec: the MAIL FROM stage decision of the Policy
Evaluator. Under `Strict` an SPF fail or permerror rejects and a temperror
temp-fails; `Relaxed` is informational only and `Disabled` skips the
check. -/
def evalMailFrom (strategy : VerifyStrategy) (result : SpfResult) : Decision :=
  match strategy with
  | VerifyStrategy.disabled => Decision.accept
  | VerifyStrategy.relaxed => Decision.accept
  | VerifyStrategy.strict =>
    match result with
    | SpfResult.fail => Decision.reject
    | SpfResult.permerror => Decision.reject
    | SpfResult.temperror => Decision.tempFail
    | _ => Decision.accept

/-- Modelled from the spec: the SMTP reply of the Session Controller at the
MAIL FROM stage — 250 on accept, 451 4.7.24 on a temporary SPF error,
550 5.7.23 on SPF rejection. -/
def mailFromReply (d : Decision) : SmtpReply :=
  match d with
  | Decision.accept => ⟨250, 2, 1, 0⟩
  | Decision.tempFail => ⟨451, 4, 7, 24⟩
  | Decision.reject => ⟨550, 5, 7, 23⟩

/-- Modelled from the spec: the pending report events produced at the MAIL
FROM stage. An SPF `fail` verdict on a looked-up record with an `ra=` tag
yields one SPF failure report addressed to `ra@<sender domain>`; a
temperror or a record without `ra=` yields none. -/
def mailFromEvents (strategy : VerifyStrategy) (lk : DnsLookup SpfRecord)
    (ip senderDomain : String) : List ReportEvent :=
  match strategy with
  | VerifyStrategy.disabled => []
  | _ =>
    match lk with
    | DnsLookup.found record =>
      if checkSpfIp record ip = SpfResult.fail then
        match record.ra with
        | some ra =>
          [⟨ReportKind.spf, senderDomain, ra ++ "@" ++ senderDomain, "spf", []⟩]
        | Option.none => []
      else []
    | _ => []

/-- Result of driving one MAIL FROM command through the pipeline. -/
structure MailFromResult where
  decision : Decision
  reply : SmtpReply
  queued : List QueuedMessage
  state : ReportState
deriving DecidableEq

/-- Modelled from the spec: the Session Controller at the MAIL FROM stage —
evaluate SPF for the envelope sender, emit the reply, and hand any failure
report that passes the Rate Limiter to the outbound queue. -/
def handleMailFrom (strategy : VerifyStrategy) (rate : Rate)
    (st : ReportState) (now : Nat) (lk : DnsLookup SpfRecord)
    (ip senderDomain : String) : MailFromResult :=
  { decision := evalMailFrom strategy (spfResultOfLookup lk ip)
  , reply := mailFromReply (evalMailFrom strategy (spfResultOfLookup lk ip))
  , queued := (submitAll rate st now (mailFromEvents strategy lk ip senderDomain)).1
  , state := (submitAll rate st now (mailFromEvents strategy lk ip senderDomain)).2 }

/-- Configuration of the DATA stage: verify strategies for DKIM, ARC and
DMARC, and the trace-header switches of the session configuration. -/
structure DataConfig where
  dkimStrategy : VerifyStrategy
  arcStrategy : VerifyStrategy
  dmarcStrategy : VerifyStrategy
  addAuthResults : Bool
  addReceivedSpf : Bool
deriving DecidableEq

/-- Inputs available to the pipeline once DATA completes: the visible
`From` domain, the MAIL FROM SPF verdict and validated domain, the DKIM
verification results, the ARC chain verdict, the DMARC record lookup, the
`_report._domainkey` record of the signing domain, the remote IP, the
envelope recipients and the message body lines. -/
structure DataInput where
  fromDomain : String
  spfResult : SpfResult
  spfDomain : String
  dkim : List DkimOutput
  arc : ArcResult
  dmarcLookup : DnsLookup DmarcRecord
  dkimReport : Option DomainKeyReport
  sourceIp : String
  rcptTo : List String
  body : List String
deriving DecidableEq

/-- Whether the SPF identity passed and aligns with the `From` domain under
the record's `aspf=` mode. -/
def spfAlignedPass (rec : DmarcRecord) (inp : DataInput) : Bool :=
  inp.spfResult == SpfResult.pass &&
    aligned rec.aspf inp.fromDomain inp.spfDomain

/-- Whether some DKIM signature passed and its signing domain aligns with
the `From` domain under the record's `adkim=` mode. -/
def dkimAlignedPass (rec : DmarcRecord) (inp : DataInput) : Bool :=
  inp.dkim.any fun o =>
    o.isPass && aligned rec.adkim inp.fromDomain o.domain

/-- Modelled from the spec: DMARC verification of the Verifier (missing
from the shipped sources) — the message passes DMARC if either the
SPF-validated domain or a passing DKIM signing domain aligns with the
`From` domain, and fails otherwise. -/
def checkDmarc (rec : DmarcRecord) (inp : DataInput) : DmarcResult :=
  if spfAlignedPass rec inp || dkimAlignedPass rec inp then DmarcResult.pass
  else DmarcResult.fail

/-- Modelled from the spec: the DKIM failure-report events of the Policy
Evaluator — one report per failing message, addressed per the signing
domain's `_report._domainkey` `ra=` tag, tagged with the failure reason. -/
def dkimReportEvents (inp : DataInput) : List ReportEvent :=
  match firstDkimFailure inp.dkim, inp.dkimReport with
  | some (d, reason), some rep =>
    [⟨ReportKind.dkim, d, rep.ra ++ "@" ++ d, dkimFailureTag reason, []⟩]
  | _, _ => []

/-- Modelled from the spec: the DMARC failure-report events of the Policy
Evaluator — one report addressed to the record's first `ruf=` address,
whose body records `dmarc=fail`; none when no `ruf=` address is
configured. -/
def dmarcReportEvents (rec : DmarcRecord) (inp : DataInput) :
    List ReportEvent :=
  match rec.ruf with
  | [] => []
  | addr :: _ =>
    [⟨ReportKind.dmarc, inp.fromDomain, addr, "dmarc", ["dmarc=fail"]⟩]

/-- Modelled from the spec: the DATA stage of the Policy Evaluator (missing
from the shipped sources). In order: a temporary DKIM DNS error with no
passing signature temp-fails (451); signatures present but none passing
reject with 550 5.7.20 and a DKIM failure report; a failed ARC chain
rejects with 550 5.7.29 and no report; a DMARC alignment failure whose
policy is `reject` rejects with 550 5.7.1 and a DMARC failure report; a
temporary DMARC lookup error temp-fails; everything else is accepted with
250 (`quarantine` is accept-with-flag, `Disabled` skips the check). -/
def evalData (cfg : DataConfig) (inp : DataInput) :
    Decision × SmtpReply × List ReportEvent :=
  if cfg.dkimStrategy = VerifyStrategy.strict ∧ hasDkimTemp inp.dkim = true ∧
      hasDkimPass inp.dkim = false then
    (Decision.tempFail, ⟨451, 4, 7, 20⟩, [])
  else if cfg.dkimStrategy = VerifyStrategy.strict ∧ inp.dkim ≠ [] ∧
      hasDkimPass inp.dkim = false then
    (Decision.reject, ⟨550, 5, 7, 20⟩, dkimReportEvents inp)
  else if cfg.arcStrategy = VerifyStrategy.strict ∧ inp.arc = ArcResult.fail then
    (Decision.reject, ⟨550, 5, 7, 29⟩, [])
  else
    match inp.dmarcLookup with
    | DnsLookup.found rec =>
      if cfg.dmarcStrategy = VerifyStrategy.disabled then
        (Decision.accept, ⟨250, 2, 0, 0⟩, [])
      else if checkDmarc rec inp = DmarcResult.fail then
        if rec.p = DmarcPolicy.reject ∧ cfg.dmarcStrategy = VerifyStrategy.strict then
          (Decision.reject, ⟨550, 5, 7, 1⟩, dmarcReportEvents rec inp)
        else (Decision.accept, ⟨250, 2, 0, 0⟩, dmarcReportEvents rec inp)
      else (Decision.accept, ⟨250, 2, 0, 0⟩, [])
    | DnsLookup.tempError =>
      if cfg.dmarcStrategy = VerifyStrategy.strict then
        (Decision.tempFail, ⟨451, 4, 7, 1⟩, [])
      else (Decision.accept, ⟨250, 2, 0, 0⟩, [])
    | _ => (Decision.accept, ⟨250, 2, 0, 0⟩, [])

/-- Rendered text of an SPF result. -/
def spfResultText : SpfResult → String
  | SpfResult.pass => "pass"
  | SpfResult.fail => "fail"
  | SpfResult.softfail => "softfail"
  | SpfResult.neutral => "neutral"
  | SpfResult.none => "none"
  | SpfResult.temperror => "temperror"
  | SpfResult.permerror => "permerror"

/-- Rendered overall DKIM verdict of a message. -/
def dkimVerdictText (l : List DkimOutput) : String :=
  if hasDkimPass l = true then "pass" else if l = [] then "none" else "fail"

/-- Rendered text of a DMARC result. -/
def dmarcResultText : DmarcResult → String
  | DmarcResult.none => "none"
  | DmarcResult.pass => "pass"
  | DmarcResult.fail => "fail"

/-- Rendered overall DMARC verdict of a message. -/
def dmarcVerdictText (inp : DataInput) : String :=
  match inp.dmarcLookup with
  | DnsLookup.found rec => dmarcResultText (checkDmarc rec inp)
  | _ => "none"

/-- Modelled from the spec: trace-header stamping of an accepted message —
when enabled, an `Authentication-Results` header records the SPF, DKIM and
DMARC verdicts and a `Received-SPF` header repeats the SPF verdict. -/
def traceMessage (cfg : DataConfig) (inp : DataInput) : QueuedMessage :=
  { recipients := inp.rcptTo
  , lines :=
      (if cfg.addAuthResults then
        ["Authentication-Results",
         "spf=" ++ spfResultText inp.spfResult,
         "dkim=" ++ dkimVerdictText inp.dkim,
         "dmarc=" ++ dmarcVerdictText inp]
      else []) ++
      (if cfg.addReceivedSpf then
        ["Received-SPF: " ++ spfResultText inp.spfResult]
      else []) ++ inp.body }

/-- One detail row of an aggregate report: the distinct
(source IP, SPF result, DKIM result, disposition) combination. -/
structure AggregateRow where
  sourceIp : String
  spfResult : DmarcResult
  dkimResult : DmarcResult
  disposition : DmarcPolicy
deriving DecidableEq

/-- Modelled from the spec: the aggregate row accrued for one evaluated
message with a DMARC record present — its aligned SPF and DKIM results and
the disposition applied. -/
def aggregateRowOf (rec : DmarcRecord) (inp : DataInput) : AggregateRow :=
  { sourceIp := inp.sourceIp
  , spfResult :=
      if spfAlignedPass rec inp then DmarcResult.pass else DmarcResult.fail
  , dkimResult :=
      if dkimAlignedPass rec inp then DmarcResult.pass else DmarcResult.fail
  , disposition :=
      if checkDmarc rec inp = DmarcResult.fail then rec.p else DmarcPolicy.none }

/-- Result of driving one completed message (DATA stage) through the
pipeline. -/
structure DataResult where
  decision : Decision
  reply : SmtpReply
  queued : List QueuedMessage
  outbound : Option QueuedMessage
  aggRow : Option AggregateRow
  state : ReportState
deriving DecidableEq

/-- Modelled from the spec: the Session Controller at the end of DATA —
evaluate DKIM/ARC/DMARC, emit the reply, queue whatever failure reports
pass the Rate Limiter, hand the accepted message (with trace headers) to
the outbound queue, and accrue the aggregate row when a DMARC record is
present. -/
def handleData (cfg : DataConfig) (rate : Rate) (st : ReportState)
    (now : Nat) (inp : DataInput) : DataResult :=
  { decision := (evalData cfg inp).1
  , reply := (evalData cfg inp).2.1
  , queued := (submitAll rate st now (evalData cfg inp).2.2).1
  , outbound :=
      if (evalData cfg inp).1 = Decision.accept then
        some (traceMessage cfg inp)
      else Option.none
  , aggRow :=
      match inp.dmarcLookup with
      | DnsLookup.found rec => some (aggregateRowOf rec inp)
      | _ => Option.none
  , state := (submitAll rate st now (evalData cfg inp).2.2).2 }

/-- Reporting interval of an aggregate bucket. -/
inductive AggregateFrequency
  | hourly
  | daily
  | never
deriving DecidableEq

/-- Per (domain, interval-start) accumulator of aggregate rows. -/
structure AggregateBucket where
  domain : String
  intervalStart : Nat
  interval : AggregateFrequency
  rows : List AggregateRow
deriving DecidableEq

/-- A finished aggregate report submitted to the report sink. -/
structure AggregateReport where
  domain : String
  interval : AggregateFrequency
  records : List AggregateRow
deriving DecidableEq

/-- Distinct rows of a list, keeping one occurrence of each. -/
def dedupRows : List AggregateRow → List AggregateRow
  | [] => []
  | r :: rest =>
    let tail := dedupRows rest
    if r ∈ tail then tail else r :: tail

/-- Modelled from the spec: rendering of a finished aggregate bucket by the
Report Builder — one record per distinct combination seen in the interval,
with the bucket's domain and interval attached. -/
def flushBucket (b : AggregateBucket) : AggregateReport :=
  ⟨b.domain, b.interval, dedupRows b.rows⟩

/-- Bucket table keyed by (domain, interval-start). -/
def lookupAgg :
    List ((String × Nat) × AggregateBucket) → String × Nat →
      Option AggregateBucket
  | [], _ => Option.none
  | kv :: rest, key => if kv.1 = key then some kv.2 else lookupAgg rest key

/-- Remove every bucket stored under a key. -/
def removeAgg :
    List ((String × Nat) × AggregateBucket) → String × Nat →
      List ((String × Nat) × AggregateBucket)
  | [], _ => []
  | kv :: rest, key =>
    if kv.1 = key then removeAgg rest key else kv :: removeAgg rest key

/-- Modelled from the spec: the schedule-driven flush of an aggregate
bucket — the finished report is rendered and the bucket evicted from the
table so it cannot double-report; flushing an absent key yields nothing. -/
def flushAggregate (table : List ((String × Nat) × AggregateBucket))
    (key : String × Nat) :
    Option AggregateReport × List ((String × Nat) × AggregateBucket) :=
  match lookupAgg table key with
  | some b => (some (flushBucket b), removeAgg table key)
  | Option.none => (Option.none, table)

theorem mem_dedupRows {r : AggregateRow} :
    ∀ {l : List AggregateRow}, r ∈ dedupRows l ↔ r ∈ l := by
  intro l
  induction l with
  | nil => simp [dedupRows]
  | cons x rest ih =>
    by_cases hx : x ∈ dedupRows rest
    · simp only [dedupRows, if_pos hx]
      constructor
      · intro h
        exact List.mem_cons_of_mem x (ih.mp h)
      · intro h
        rcases List.mem_cons.mp h with h | h
        · exact h ▸ hx
        · exact ih.mpr h
    · simp only [dedupRows, if_neg hx]
      constructor
      · intro h
        rcases List.mem_cons.mp h with h | h
        · exact h ▸ List.mem_cons_self x rest
        · exact List.mem_cons_of_mem x (ih.mp h)
      · intro h
        rcases List.mem_cons.mp h with h | h
        · exact h ▸ List.mem_cons_self x (dedupRows rest)
        · exact List.mem_cons_of_mem x (ih.mpr h)

theorem nodup_dedupRows : ∀ (l : List AggregateRow), (dedupRows l).Nodup := by
  intro l
  induction l with
  | nil => simp [dedupRows]
  | cons x rest ih =>
    by_cases hx : x ∈ dedupRows rest
    · simpa [dedupRows, if_pos hx] using ih
    · simpa [dedupRows, if_neg hx] using List.Nodup.cons hx ih

theorem lookupAgg_removeAgg (key : String × Nat) :
    ∀ (table : List ((String × Nat) × AggregateBucket)),
      lookupAgg (removeAgg table key) key = Option.none := by
  intro table
  induction table with
  | nil => simp [removeAgg, lookupAgg]
  | cons kv rest ih =>
    by_cases hk : kv.1 = key
    · simpa [removeAgg, if_pos hk] using ih
    · simpa [removeAgg, lookupAgg, if_neg hk] using ih

/-- Claim C1: for every SPF record ending in a `-all` terminal mechanism, a
MAIL FROM issued from an IP that matches no preceding mechanism yields SPF
result `fail`; under the Strict verify strategy the session receives SMTP
reply 550 with enhanced code 5.7.23, and exactly one failure report —
addressed to the record's `ra=` target and carrying the header
`Auth-Failure: spf` — is placed in the outbound queue. -/
theorem c1_spf_fail_strict_reject_and_report
    (ips : List String) (ip ra senderDomain : String) (rate : Rate) (now : Nat)
    (h : ips.contains ip = false) :
    checkSpfIp ⟨ips, SpfQualifier.minus, some ra⟩ ip = SpfResult.fail ∧
    (handleMailFrom VerifyStrategy.strict rate emptyReportState now
        (DnsLookup.found ⟨ips, SpfQualifier.minus, some ra⟩) ip senderDomain).reply =
      ⟨550, 5, 7, 23⟩ ∧
    ∃ m, (handleMailFrom VerifyStrategy.strict rate emptyReportState now
        (DnsLookup.found ⟨ips, SpfQualifier.minus, some ra⟩) ip senderDomain).queued =
        [m] ∧
      m.recipients.getLast? = some (ra ++ "@" ++ senderDomain) ∧
      "Feedback-Type: auth-failure" ∈ m.lines ∧
      "Auth-Failure: spf" ∈ m.lines := by
  have hmem : ip ∉ ips := by simpa using h
  have hspf : checkSpfIp ⟨ips, SpfQualifier.minus, some ra⟩ ip = SpfResult.fail := by
    simp [checkSpfIp, hmem]
  refine ⟨hspf, ?_, ?_⟩
  · simp [handleMailFrom, spfResultOfLookup, hspf, evalMailFrom, mailFromReply]
  · refine ⟨renderReport
      ⟨ReportKind.spf, senderDomain, ra ++ "@" ++ senderDomain, "spf", []⟩,
      ?_, ?_, ?_, ?_⟩
    · simp [handleMailFrom, mailFromEvents, hspf, submitAll, submitReport,
        lookupBucket, emptyReportState, rateLimitAllow]
    · simp [renderReport]
    · simp [renderReport]
    · simp [renderReport]

/-- Claim C1 witness: the theorem instantiated at the test scenario — record
`v=spf1 ip4:10.0.0.1 -all ra=spf-failures` probed from 10.0.0.2. -/
theorem c1_spf_fail_strict_reject_and_report_witness :
    checkSpfIp ⟨["10.0.0.1"], SpfQualifier.minus, some "spf-failures"⟩
        "10.0.0.2" = SpfResult.fail ∧
    (handleMailFrom VerifyStrategy.strict ⟨1, 1⟩ emptyReportState 0
        (DnsLookup.found ⟨["10.0.0.1"], SpfQualifier.minus, some "spf-failures"⟩)
        "10.0.0.2" "example.com").reply = ⟨550, 5, 7, 23⟩ ∧
    ∃ m, (handleMailFrom VerifyStrategy.strict ⟨1, 1⟩ emptyReportState 0
        (DnsLookup.found ⟨["10.0.0.1"], SpfQualifier.minus, some "spf-failures"⟩)
        "10.0.0.2" "example.com").queued = [m] ∧
      m.recipients.getLast? = some ("spf-failures" ++ "@" ++ "example.com") ∧
      "Feedback-Type: auth-failure" ∈ m.lines ∧
      "Auth-Failure: spf" ∈ m.lines :=
  c1_spf_fail_strict_reject_and_report ["10.0.0.1"] "10.0.0.2" "spf-failures"
    "example.com" ⟨1, 1⟩ 0 (by decide)

/-- Claim C2: for a (domain, report-kind) key whose rate limit is 1 request
per period, the first failure produces exactly one report, a second failure
of the same kind for the same domain within the rate window produces no
additional report, and the denied report instance is dropped permanently:
the limiter state is left unchanged, so nothing is retried. -/
theorem c2_rate_limit_one_per_period
    (ev : ReportEvent) (p now later : Nat)
    (h : later < now + p) :
    (submitReport ⟨1, p⟩ emptyReportState now ev).1 = some (renderReport ev) ∧
    (submitReport ⟨1, p⟩ (submitReport ⟨1, p⟩ emptyReportState now ev).2
        later ev).1 = Option.none ∧
    (submitReport ⟨1, p⟩ (submitReport ⟨1, p⟩ emptyReportState now ev).2
        later ev).2 = (submitReport ⟨1, p⟩ emptyReportState now ev).2 := by
  have hfirst : submitReport ⟨1, p⟩ emptyReportState now ev =
      (some (renderReport ev), ⟨[((ev.domain, ev.kind), ⟨0, now⟩)]⟩) := by
    simp [submitReport, emptyReportState, lookupBucket, rateLimitAllow,
      insertBucket]
  have hnr : ¬ (now + p ≤ later) := by omega
  refine ⟨by rw [hfirst], ?_, ?_⟩ <;>
    rw [hfirst] <;>
    simp [submitReport, lookupBucket, rateLimitAllow, refillBucket, hnr]

/-- Claim C2 witness: the theorem instantiated at the test scenario — two
SPF failure reports for example.com, one second apart with a one-second
period expressed in milliseconds. -/
theorem c2_rate_limit_one_per_period_witness :
    (submitReport ⟨1, 1000⟩ emptyReportState 0
        ⟨ReportKind.spf, "example.com", "spf-failures@example.com", "spf", []⟩).1 =
      some (renderReport
        ⟨ReportKind.spf, "example.com", "spf-failures@example.com", "spf", []⟩) ∧
    (submitReport ⟨1, 1000⟩ (submitReport ⟨1, 1000⟩ emptyReportState 0
        ⟨ReportKind.spf, "example.com", "spf-failures@example.com", "spf", []⟩).2
        500
        ⟨ReportKind.spf, "example.com", "spf-failures@example.com", "spf", []⟩).1 =
      Option.none ∧
    (submitReport ⟨1, 1000⟩ (submitReport ⟨1, 1000⟩ emptyReportState 0
        ⟨ReportKind.spf, "example.com", "spf-failures@example.com", "spf", []⟩).2
        500
        ⟨ReportKind.spf, "example.com", "spf-failures@example.com", "spf", []⟩).2 =
      (submitReport ⟨1, 1000⟩ emptyReportState 0
        ⟨ReportKind.spf, "example.com", "spf-failures@example.com", "spf", []⟩).2 :=
  c2_rate_limit_one_per_period
    ⟨ReportKind.spf, "example.com", "spf-failures@example.com", "spf", []⟩
    1000 0 500 (by decide)

/-- Claim C3: a message whose DKIM signature verifies but whose visible
`From` domain matches neither the signing domain of any passing signature
nor the SPF-validated domain, under Strict DMARC alignment and a DMARC
`reject` policy, is rejected by the Policy Evaluator with SMTP 550 5.7.1,
and a DMARC failure report recording `dmarc=fail` is generated and
addressed to the DMARC `ruf=` address. -/
theorem c3_dmarc_unaligned_reject_and_report
    (cfg : DataConfig) (inp : DataInput) (rec : DmarcRecord)
    (rufAddr : String) (rate : Rate) (now : Nat)
    (hdmarc : cfg.dmarcStrategy = VerifyStrategy.strict)
    (hlk : inp.dmarcLookup = DnsLookup.found rec)
    (hpol : rec.p = DmarcPolicy.reject)
    (hruf : rec.ruf = [rufAddr])
    (haspf : rec.aspf = AlignmentMode.strict)
    (hadkim : rec.adkim = AlignmentMode.strict)
    (hpass : hasDkimPass inp.dkim = true)
    (hsigner : ∀ o ∈ inp.dkim, o.isPass = true → inp.fromDomain ≠ o.domain)
    (hspfdom : inp.fromDomain ≠ inp.spfDomain)
    (harc : inp.arc ≠ ArcResult.fail) :
    checkDmarc rec inp = DmarcResult.fail ∧
    (handleData cfg rate emptyReportState now inp).decision = Decision.reject ∧
    (handleData cfg rate emptyReportState now inp).reply = ⟨550, 5, 7, 1⟩ ∧
    ∃ m, (handleData cfg rate emptyReportState now inp).queued = [m] ∧
      m.recipients.getLast? = some rufAddr ∧
      "Auth-Failure: dmarc" ∈ m.lines ∧
      "dmarc=fail" ∈ m.lines := by
  have hsa : spfAlignedPass rec inp = false := by
    have hal : aligned rec.aspf inp.fromDomain inp.spfDomain = false := by
      rw [haspf]
      simp [aligned]
      exact hspfdom
    simp [spfAlignedPass, hal]
  have hda : dkimAlignedPass rec inp = false := by
    rw [dkimAlignedPass]
    rw [List.any_eq_false]
    intro o ho
    intro hcontra
    rcases Bool.and_eq_true _ _ |>.mp hcontra with ⟨hop, hal⟩
    rw [hadkim] at hal
    exact hsigner o ho hop (eq_of_beq hal)
  have hdm : checkDmarc rec inp = DmarcResult.fail := by
    simp [checkDmarc, hsa, hda]
  have hev : evalData cfg inp =
      (Decision.reject, ⟨550, 5, 7, 1⟩, dmarcReportEvents rec inp) := by
    simp [evalData, hpass, harc, hlk, hdmarc, hdm, hpol]
  refine ⟨hdm, ?_, ?_, ?_⟩
  · simp [handleData, hev]
  · simp [handleData, hev]
  · refine ⟨renderReport
      ⟨ReportKind.dmarc, inp.fromDomain, rufAddr, "dmarc", ["dmarc=fail"]⟩,
      ?_, ?_, ?_, ?_⟩
    · simp [handleData, hev, dmarcReportEvents, hruf, submitAll, submitReport,
        lookupBucket, emptyReportState, rateLimitAllow]
    · simp [renderReport]
    · simp [renderReport]
    · simp [renderReport]

/-- Claim C3 witness: the theorem instantiated at the test scenario — a
message from joe at foobar.com carrying a passing DKIM signature of
example.com, evaluated against example.com's `p=reject; aspf=s; adkim=s`
record with `ruf=mailto:dmarc-failures@example.com`. -/
theorem c3_dmarc_unaligned_reject_and_report_witness :
    checkDmarc
        ⟨DmarcPolicy.reject, some DmarcPolicy.quarantine, AlignmentMode.strict,
          AlignmentMode.strict, ["dmarc-feedback@example.com"],
          ["dmarc-failures@example.com"], 1⟩
        ⟨"foobar.com", SpfResult.pass, "mail.foobar.com",
          [⟨"example.com", DkimVerdict.pass⟩], ArcResult.none,
          DnsLookup.found
            ⟨DmarcPolicy.reject, some DmarcPolicy.quarantine,
              AlignmentMode.strict, AlignmentMode.strict,
              ["dmarc-feedback@example.com"], ["dmarc-failures@example.com"], 1⟩,
          some ⟨"dkim-failures"⟩, "10.0.0.1", ["jdoe@example.com"], []⟩ =
      DmarcResult.fail ∧
    (handleData
        ⟨VerifyStrategy.strict, VerifyStrategy.strict, VerifyStrategy.strict,
          true, true⟩ ⟨1, 1000⟩ emptyReportState 0
        ⟨"foobar.com", SpfResult.pass, "mail.foobar.com",
          [⟨"example.com", DkimVerdict.pass⟩], ArcResult.none,
          DnsLookup.found
            ⟨DmarcPolicy.reject, some DmarcPolicy.quarantine,
              AlignmentMode.strict, AlignmentMode.strict,
              ["dmarc-feedback@example.com"], ["dmarc-failures@example.com"], 1⟩,
          some ⟨"dkim-failures"⟩, "10.0.0.1", ["jdoe@example.com"], []⟩).decision =
      Decision.reject ∧
    (handleData
        ⟨VerifyStrategy.strict, VerifyStrategy.strict, VerifyStrategy.strict,
          true, true⟩ ⟨1, 1000⟩ emptyReportState 0
        ⟨"foobar.com", SpfResult.pass, "mail.foobar.com",
          [⟨"example.com", DkimVerdict.pass⟩], ArcResult.none,
          DnsLookup.found
            ⟨DmarcPolicy.reject, some DmarcPolicy.quarantine,
              AlignmentMode.strict, AlignmentMode.strict,
              ["dmarc-feedback@example.com"], ["dmarc-failures@example.com"], 1⟩,
          some ⟨"dkim-failures"⟩, "10.0.0.1", ["jdoe@example.com"], []⟩).reply =
      ⟨550, 5, 7, 1⟩ ∧
    ∃ m, (handleData
        ⟨VerifyStrategy.strict, VerifyStrategy.strict, VerifyStrategy.strict,
          true, true⟩ ⟨1, 1000⟩ emptyReportState 0
        ⟨"foobar.com", SpfResult.pass, "mail.foobar.com",
          [⟨"example.com", DkimVerdict.pass⟩], ArcResult.none,
          DnsLookup.found
            ⟨DmarcPolicy.reject, some DmarcPolicy.quarantine,
              AlignmentMode.strict, AlignmentMode.strict,
              ["dmarc-feedback@example.com"], ["dmarc-failures@example.com"], 1⟩,
          some ⟨"dkim-failures"⟩, "10.0.0.1", ["jdoe@example.com"], []⟩).queued =
        [m] ∧
      m.recipients.getLast? = some "dmarc-failures@example.com" ∧
      "Auth-Failure: dmarc" ∈ m.lines ∧
      "dmarc=fail" ∈ m.lines :=
  c3_dmarc_unaligned_reject_and_report
    ⟨VerifyStrategy.strict, VerifyStrategy.strict, VerifyStrategy.strict,
      true, true⟩
    ⟨"foobar.com", SpfResult.pass, "mail.foobar.com",
      [⟨"example.com", DkimVerdict.pass⟩], ArcResult.none,
      DnsLookup.found
        ⟨DmarcPolicy.reject, some DmarcPolicy.quarantine, AlignmentMode.strict,
          AlignmentMode.strict, ["dmarc-feedback@example.com"],
          ["dmarc-failures@example.com"], 1⟩,
      some ⟨"dkim-failures"⟩, "10.0.0.1", ["jdoe@example.com"], []⟩
    ⟨DmarcPolicy.reject, some DmarcPolicy.quarantine, AlignmentMode.strict,
      AlignmentMode.strict, ["dmarc-feedback@example.com"],
      ["dmarc-failures@example.com"], 1⟩
    "dmarc-failures@example.com" ⟨1, 1000⟩ 0
    rfl rfl rfl rfl rfl rfl rfl
    (by decide) (by decide) (by decide)

/-- Claim C4: a message carrying a DKIM-Signature header whose body hash
does not verify produces, under the Strict strategy, the tagged failure
reason bad body hash; the session is rejected with SMTP 550 5.7.20 and the
generated failure report — addressed per the signer domain's
`_report._domainkey` `ra=` tag — carries the header
`Auth-Failure: bodyhash`. -/
theorem c4_dkim_bodyhash_reject_and_report
    (signerDomain ra fromDomain spfDomain sourceIp : String)
    (spfResult : SpfResult) (arc : ArcResult)
    (dmarcLookup : DnsLookup DmarcRecord) (rcptTo body : List String)
    (authFlag spfFlag : Bool) (rate : Rate) (now : Nat) :
    firstDkimFailure [⟨signerDomain, DkimVerdict.fail DkimFailure.badBodyHash⟩] =
      some (signerDomain, DkimFailure.badBodyHash) ∧
    dkimFailureTag DkimFailure.badBodyHash = "bodyhash" ∧
    (handleData
        ⟨VerifyStrategy.strict, VerifyStrategy.strict, VerifyStrategy.strict,
          authFlag, spfFlag⟩ rate emptyReportState now
        ⟨fromDomain, spfResult, spfDomain,
          [⟨signerDomain, DkimVerdict.fail DkimFailure.badBodyHash⟩], arc,
          dmarcLookup, some ⟨ra⟩, sourceIp, rcptTo, body⟩).decision =
      Decision.reject ∧
    (handleData
        ⟨VerifyStrategy.strict, VerifyStrategy.strict, VerifyStrategy.strict,
          authFlag, spfFlag⟩ rate emptyReportState now
        ⟨fromDomain, spfResult, spfDomain,
          [⟨signerDomain, DkimVerdict.fail DkimFailure.badBodyHash⟩], arc,
          dmarcLookup, some ⟨ra⟩, sourceIp, rcptTo, body⟩).reply =
      ⟨550, 5, 7, 20⟩ ∧
    ∃ m, (handleData
        ⟨VerifyStrategy.strict, VerifyStrategy.strict, VerifyStrategy.strict,
          authFlag, spfFlag⟩ rate emptyReportState now
        ⟨fromDomain, spfResult, spfDomain,
          [⟨signerDomain, DkimVerdict.fail DkimFailure.badBodyHash⟩], arc,
          dmarcLookup, some ⟨ra⟩, sourceIp, rcptTo, body⟩).queued = [m] ∧
      m.recipients.getLast? = some (ra ++ "@" ++ signerDomain) ∧
      "Feedback-Type: auth-failure" ∈ m.lines ∧
      "Auth-Failure: bodyhash" ∈ m.lines := by
  have hev : evalData
      ⟨VerifyStrategy.strict, VerifyStrategy.strict, VerifyStrategy.strict,
        authFlag, spfFlag⟩
      ⟨fromDomain, spfResult, spfDomain,
        [⟨signerDomain, DkimVerdict.fail DkimFailure.badBodyHash⟩], arc,
        dmarcLookup, some ⟨ra⟩, sourceIp, rcptTo, body⟩ =
      (Decision.reject, ⟨550, 5, 7, 20⟩,
        [⟨ReportKind.dkim, signerDomain, ra ++ "@" ++ signerDomain,
          "bodyhash", []⟩]) := by
    simp [evalData, hasDkimTemp, hasDkimPass, DkimOutput.isTempError,
      DkimOutput.isPass, List.any, dkimReportEvents, firstDkimFailure,
      dkimFailureTag]
  refine ⟨rfl, rfl, ?_, ?_, ?_⟩
  · simp [handleData, hev]
  · simp [handleData, hev]
  · refine ⟨renderReport
      ⟨ReportKind.dkim, signerDomain, ra ++ "@" ++ signerDomain,
        "bodyhash", []⟩, ?_, ?_, ?_, ?_⟩
    · simp [handleData, hev, submitAll, submitReport, lookupBucket,
        emptyReportState, rateLimitAllow, dkimFailureTag]
    · simp [renderReport]
    · simp [renderReport]
    · simp [renderReport]

/-- Claim C5: flushing an aggregate bucket for interval Daily yields a
finished report carrying the bucket's domain and the Daily interval, whose
records are exactly one per distinct (source-IP, SPF-result, DKIM-result,
disposition) combination seen in the interval; the bucket is evicted by
the flush, so the same interval can never be reported twice. -/
theorem c5_aggregate_flush_distinct_and_evict
    (table : List ((String × Nat) × AggregateBucket)) (key : String × Nat)
    (b : AggregateBucket)
    (hb : lookupAgg table key = some b)
    (hint : b.interval = AggregateFrequency.daily) :
    (flushAggregate table key).1 = some (flushBucket b) ∧
    (flushBucket b).domain = b.domain ∧
    (flushBucket b).interval = AggregateFrequency.daily ∧
    (flushBucket b).records.Nodup ∧
    (∀ r, r ∈ (flushBucket b).records ↔ r ∈ b.rows) ∧
    lookupAgg (flushAggregate table key).2 key = Option.none ∧
    (flushAggregate (flushAggregate table key).2 key).1 = Option.none := by
  have hfl : flushAggregate table key =
      (some (flushBucket b), removeAgg table key) := by
    simp [flushAggregate, hb]
  have hev : lookupAgg (flushAggregate table key).2 key = Option.none := by
    rw [hfl]
    exact lookupAgg_removeAgg key table
  refine ⟨by rw [hfl], rfl, ?_, nodup_dedupRows b.rows, ?_, hev, ?_⟩
  · simp [flushBucket, hint]
  · intro r
    exact mem_dedupRows
  · generalize hq : (flushAggregate table key).2 = evicted at hev ⊢
    simp [flushAggregate, hev]

/-- Claim C5 witness: the theorem instantiated at the test scenario — the
daily bucket of example.com holding the single row recorded for the
rejected message, flushed out of a one-entry table. -/
theorem c5_aggregate_flush_distinct_and_evict_witness :
    (flushAggregate
        [(("example.com", 0),
          ⟨"example.com", 0, AggregateFrequency.daily,
            [⟨"10.0.0.1", DmarcResult.fail, DmarcResult.fail,
              DmarcPolicy.reject⟩]⟩)]
        ("example.com", 0)).1 =
      some (flushBucket
        ⟨"example.com", 0, AggregateFrequency.daily,
          [⟨"10.0.0.1", DmarcResult.fail, DmarcResult.fail,
            DmarcPolicy.reject⟩]⟩) ∧
    (flushBucket
        ⟨"example.com", 0, AggregateFrequency.daily,
          [⟨"10.0.0.1", DmarcResult.fail, DmarcResult.fail,
            DmarcPolicy.reject⟩]⟩).domain = "example.com" ∧
    (flushBucket
        ⟨"example.com", 0, AggregateFrequency.daily,
          [⟨"10.0.0.1", DmarcResult.fail, DmarcResult.fail,
            DmarcPolicy.reject⟩]⟩).interval = AggregateFrequency.daily ∧
    (flushBucket
        ⟨"example.com", 0, AggregateFrequency.daily,
          [⟨"10.0.0.1", DmarcResult.fail, DmarcResult.fail,
            DmarcPolicy.reject⟩]⟩).records.Nodup ∧
    (∀ r, r ∈ (flushBucket
        ⟨"example.com", 0, AggregateFrequency.daily,
          [⟨"10.0.0.1", DmarcResult.fail, DmarcResult.fail,
            DmarcPolicy.reject⟩]⟩).records ↔
      r ∈ [(⟨"10.0.0.1", DmarcResult.fail, DmarcResult.fail,
            DmarcPolicy.reject⟩ : AggregateRow)]) ∧
    lookupAgg
        (flushAggregate
          [(("example.com", 0),
            ⟨"example.com", 0, AggregateFrequency.daily,
              [⟨"10.0.0.1", DmarcResult.fail, DmarcResult.fail,
                DmarcPolicy.reject⟩]⟩)]
          ("example.com", 0)).2 ("example.com", 0) = Option.none ∧
    (flushAggregate
        (flushAggregate
          [(("example.com", 0),
            ⟨"example.com", 0, AggregateFrequency.daily,
              [⟨"10.0.0.1", DmarcResult.fail, DmarcResult.fail,
                DmarcPolicy.reject⟩]⟩)]
          ("example.com", 0)).2 ("example.com", 0)).1 = Option.none :=
  c5_aggregate_flush_distinct_and_evict
    [(("example.com", 0),
      ⟨"example.com", 0, AggregateFrequency.daily,
        [⟨"10.0.0.1", DmarcResult.fail, DmarcResult.fail,
          DmarcPolicy.reject⟩]⟩)]
    ("example.com", 0)
    ⟨"example.com", 0, AggregateFrequency.daily,
      [⟨"10.0.0.1", DmarcResult.fail, DmarcResult.fail, DmarcPolicy.reject⟩]⟩
    (by decide) rfl

/-- Claim C6: a message whose `From` domain aligns, under the record's
configured alignment mode, with the SPF-validated domain or with a passing
DKIM signing domain passes DMARC, and — provided the other strict checks
do not independently fail (some DKIM signature passes or none is present,
and the ARC chain is not broken) — the message is accepted with SMTP 250
even when every verify strategy is Strict. -/
theorem c6_aligned_dmarc_pass_accept
    (cfg : DataConfig) (inp : DataInput) (rec : DmarcRecord) (rate : Rate)
    (st : ReportState) (now : Nat)
    (hdmarc : cfg.dmarcStrategy = VerifyStrategy.strict)
    (hlk : inp.dmarcLookup = DnsLookup.found rec)
    (halign : spfAlignedPass rec inp = true ∨ dkimAlignedPass rec inp = true)
    (hframe : hasDkimPass inp.dkim = true ∨ inp.dkim = [])
    (harc : inp.arc ≠ ArcResult.fail) :
    checkDmarc rec inp = DmarcResult.pass ∧
    (handleData cfg rate st now inp).decision = Decision.accept ∧
    (handleData cfg rate st now inp).reply.code = 250 := by
  have hdm : checkDmarc rec inp = DmarcResult.pass := by
    rcases halign with h | h <;> simp [checkDmarc, h]
  have hev : evalData cfg inp = (Decision.accept, ⟨250, 2, 0, 0⟩, []) := by
    rcases hframe with h | h
    · simp [evalData, h, harc, hlk, hdmarc, hdm]
    · simp [evalData, h, hasDkimTemp, hasDkimPass, List.any, harc, hlk,
        hdmarc, hdm]
  exact ⟨hdm, by simp [handleData, hev], by simp [handleData, hev]⟩

/-- Claim C6 witness: the theorem instantiated at the test scenario — the
accepted message from bill at example.com with a passing, strictly aligned
DKIM signature of example.com and a passing, strictly aligned SPF identity,
all strategies Strict. -/
theorem c6_aligned_dmarc_pass_accept_witness :
    checkDmarc
        ⟨DmarcPolicy.reject, some DmarcPolicy.quarantine, AlignmentMode.strict,
          AlignmentMode.strict, ["dmarc-feedback@example.com"],
          ["dmarc-failures@example.com"], 1⟩
        ⟨"example.com", SpfResult.pass, "example.com",
          [⟨"example.com", DkimVerdict.pass⟩], ArcResult.pass,
          DnsLookup.found
            ⟨DmarcPolicy.reject, some DmarcPolicy.quarantine,
              AlignmentMode.strict, AlignmentMode.strict,
              ["dmarc-feedback@example.com"], ["dmarc-failures@example.com"], 1⟩,
          some ⟨"dkim-failures"⟩, "10.0.0.1", ["jdoe@example.com"], []⟩ =
      DmarcResult.pass ∧
    (handleData
        ⟨VerifyStrategy.strict, VerifyStrategy.strict, VerifyStrategy.strict,
          true, true⟩ ⟨1, 1000⟩ emptyReportState 0
        ⟨"example.com", SpfResult.pass, "example.com",
          [⟨"example.com", DkimVerdict.pass⟩], ArcResult.pass,
          DnsLookup.found
            ⟨DmarcPolicy.reject, some DmarcPolicy.quarantine,
              AlignmentMode.strict, AlignmentMode.strict,
              ["dmarc-feedback@example.com"], ["dmarc-failures@example.com"], 1⟩,
          some ⟨"dkim-failures"⟩, "10.0.0.1", ["jdoe@example.com"], []⟩).decision =
      Decision.accept ∧
    (handleData
        ⟨VerifyStrategy.strict, VerifyStrategy.strict, VerifyStrategy.strict,
          true, true⟩ ⟨1, 1000⟩ emptyReportState 0
        ⟨"example.com", SpfResult.pass, "example.com",
          [⟨"example.com", DkimVerdict.pass⟩], ArcResult.pass,
          DnsLookup.found
            ⟨DmarcPolicy.reject, some DmarcPolicy.quarantine,
              AlignmentMode.strict, AlignmentMode.strict,
              ["dmarc-feedback@example.com"], ["dmarc-failures@example.com"], 1⟩,
          some ⟨"dkim-failures"⟩, "10.0.0.1", ["jdoe@example.com"], []⟩).reply.code =
      250 :=
  c6_aligned_dmarc_pass_accept
    ⟨VerifyStrategy.strict, VerifyStrategy.strict, VerifyStrategy.strict,
      true, true⟩
    ⟨"example.com", SpfResult.pass, "example.com",
      [⟨"example.com", DkimVerdict.pass⟩], ArcResult.pass,
      DnsLookup.found
        ⟨DmarcPolicy.reject, some DmarcPolicy.quarantine, AlignmentMode.strict,
          AlignmentMode.strict, ["dmarc-feedback@example.com"],
          ["dmarc-failures@example.com"], 1⟩,
      some ⟨"dkim-failures"⟩, "10.0.0.1", ["jdoe@example.com"], []⟩
    ⟨DmarcPolicy.reject, some DmarcPolicy.quarantine, AlignmentMode.strict,
      AlignmentMode.strict, ["dmarc-feedback@example.com"],
      ["dmarc-failures@example.com"], 1⟩
    ⟨1, 1000⟩ emptyReportState 0
    rfl rfl (Or.inl (by decide)) (Or.inl (by decide)) (by decide)

/-- Claim C7: an SPF or DKIM verification ending in a DNS temporary error
with no conclusive fallback result makes the Policy Evaluator return
TempFail with an SMTP 4xx code instead of a permanent 5xx rejection, and
no failure report is generated for that message. -/
theorem c7_temperror_tempfail_no_report
    (rate : Rate) (st : ReportState) (now : Nat) (ip senderDomain : String)
    (cfg : DataConfig) (inp : DataInput)
    (hdkim : cfg.dkimStrategy = VerifyStrategy.strict)
    (htemp : hasDkimTemp inp.dkim = true)
    (hnopass : hasDkimPass inp.dkim = false) :
    ((handleMailFrom VerifyStrategy.strict rate st now DnsLookup.tempError
        ip senderDomain).decision = Decision.tempFail ∧
      400 ≤ (handleMailFrom VerifyStrategy.strict rate st now
        DnsLookup.tempError ip senderDomain).reply.code ∧
      (handleMailFrom VerifyStrategy.strict rate st now DnsLookup.tempError
        ip senderDomain).reply.code < 500 ∧
      (handleMailFrom VerifyStrategy.strict rate st now DnsLookup.tempError
        ip senderDomain).queued = []) ∧
    ((handleData cfg rate st now inp).decision = Decision.tempFail ∧
      400 ≤ (handleData cfg rate st now inp).reply.code ∧
      (handleData cfg rate st now inp).reply.code < 500 ∧
      (handleData cfg rate st now inp).queued = []) := by
  constructor
  · refine ⟨rfl, ?_, ?_, ?_⟩
    · simp [handleMailFrom, spfResultOfLookup, evalMailFrom, mailFromReply]
    · simp [handleMailFrom, spfResultOfLookup, evalMailFrom, mailFromReply]
    · simp [handleMailFrom, mailFromEvents, submitAll]
  · have hev : evalData cfg inp = (Decision.tempFail, ⟨451, 4, 7, 20⟩, []) := by
      simp [evalData, hdkim, htemp, hnopass]
    refine ⟨?_, ?_, ?_, ?_⟩ <;> simp [handleData, hev, submitAll]

/-- Claim C7 witness: the theorem instantiated at a session whose MAIL FROM
SPF lookup temp-errors and whose sole DKIM signature key lookup
temp-errors. -/
theorem c7_temperror_tempfail_no_report_witness :
    ((handleMailFrom VerifyStrategy.strict ⟨1, 1000⟩ emptyReportState 0
        DnsLookup.tempError "10.0.0.2" "example.com").decision =
        Decision.tempFail ∧
      400 ≤ (handleMailFrom VerifyStrategy.strict ⟨1, 1000⟩ emptyReportState 0
        DnsLookup.tempError "10.0.0.2" "example.com").reply.code ∧
      (handleMailFrom VerifyStrategy.strict ⟨1, 1000⟩ emptyReportState 0
        DnsLookup.tempError "10.0.0.2" "example.com").reply.code < 500 ∧
      (handleMailFrom VerifyStrategy.strict ⟨1, 1000⟩ emptyReportState 0
        DnsLookup.tempError "10.0.0.2" "example.com").queued = []) ∧
    ((handleData
        ⟨VerifyStrategy.strict, VerifyStrategy.strict, VerifyStrategy.strict,
          true, true⟩ ⟨1, 1000⟩ emptyReportState 0
        ⟨"example.com", SpfResult.pass, "example.com",
          [⟨"example.com", DkimVerdict.temperror⟩], ArcResult.none,
          DnsLookup.notFound, Option.none, "10.0.0.1",
          ["jdoe@example.com"], []⟩).decision = Decision.tempFail ∧
      400 ≤ (handleData
        ⟨VerifyStrategy.strict, VerifyStrategy.strict, VerifyStrategy.strict,
          true, true⟩ ⟨1, 1000⟩ emptyReportState 0
        ⟨"example.com", SpfResult.pass, "example.com",
          [⟨"example.com", DkimVerdict.temperror⟩], ArcResult.none,
          DnsLookup.notFound, Option.none, "10.0.0.1",
          ["jdoe@example.com"], []⟩).reply.code ∧
      (handleData
        ⟨VerifyStrategy.strict, VerifyStrategy.strict, VerifyStrategy.strict,
          true, true⟩ ⟨1, 1000⟩ emptyReportState 0
        ⟨"example.com", SpfResult.pass, "example.com",
          [⟨"example.com", DkimVerdict.temperror⟩], ArcResult.none,
          DnsLookup.notFound, Option.none, "10.0.0.1",
          ["jdoe@example.com"], []⟩).reply.code < 500 ∧
      (handleData
        ⟨VerifyStrategy.strict, VerifyStrategy.strict, VerifyStrategy.strict,
          true, true⟩ ⟨1, 1000⟩ emptyReportState 0
        ⟨"example.com", SpfResult.pass, "example.com",
          [⟨"example.com", DkimVerdict.temperror⟩], ArcResult.none,
          DnsLookup.notFound, Option.none, "10.0.0.1",
          ["jdoe@example.com"], []⟩).queued = []) :=
  c7_temperror_tempfail_no_report ⟨1, 1000⟩ emptyReportState 0 "10.0.0.2"
    "example.com"
    ⟨VerifyStrategy.strict, VerifyStrategy.strict, VerifyStrategy.strict,
      true, true⟩
    ⟨"example.com", SpfResult.pass, "example.com",
      [⟨"example.com", DkimVerdict.temperror⟩], ArcResult.none,
      DnsLookup.notFound, Option.none, "10.0.0.1", ["jdoe@example.com"], []⟩
    rfl (by decide) (by decide)

/-- Claim C8: a message whose ARC seal chain fails to validate under the
Strict strategy (its other checks not independently failing) is rejected
with SMTP 550 5.7.29, yet no failure report of any kind is enqueued and
the limiter state is untouched; indeed ARC failure is not among the report
kinds — every report kind is SPF, DKIM or DMARC failure. -/
theorem c8_arc_fail_reject_without_report
    (cfg : DataConfig) (inp : DataInput) (rate : Rate) (st : ReportState)
    (now : Nat)
    (harcs : cfg.arcStrategy = VerifyStrategy.strict)
    (harc : inp.arc = ArcResult.fail)
    (hframe : hasDkimPass inp.dkim = true ∨ inp.dkim = []) :
    (handleData cfg rate st now inp).decision = Decision.reject ∧
    (handleData cfg rate st now inp).reply = ⟨550, 5, 7, 29⟩ ∧
    (handleData cfg rate st now inp).queued = [] ∧
    (handleData cfg rate st now inp).state = st ∧
    ∀ k : ReportKind,
      k = ReportKind.spf ∨ k = ReportKind.dkim ∨ k = ReportKind.dmarc := by
  have hev : evalData cfg inp = (Decision.reject, ⟨550, 5, 7, 29⟩, []) := by
    rcases hframe with h | h
    · simp [evalData, h, harcs, harc]
    · simp [evalData, h, hasDkimTemp, hasDkimPass, List.any, harcs, harc]
  refine ⟨?_, ?_, ?_, ?_, ?_⟩
  · simp [handleData, hev]
  · simp [handleData, hev]
  · simp [handleData, hev, submitAll]
  · simp [handleData, hev, submitAll]
  · intro k
    cases k
    · exact Or.inl rfl
    · exact Or.inr (Or.inl rfl)
    · exact Or.inr (Or.inr rfl)

/-- Claim C8 witness: the theorem instantiated at the test scenario — a
message with a passing DKIM signature but a broken ARC chain, all
strategies Strict, starting from an empty limiter state. -/
theorem c8_arc_fail_reject_without_report_witness :
    (handleData
        ⟨VerifyStrategy.strict, VerifyStrategy.strict, VerifyStrategy.strict,
          true, true⟩ ⟨1, 1000⟩ emptyReportState 0
        ⟨"example.com", SpfResult.pass, "example.com",
          [⟨"example.com", DkimVerdict.pass⟩], ArcResult.fail,
          DnsLookup.notFound, Option.none, "10.0.0.1",
          ["jdoe@example.com"], []⟩).decision = Decision.reject ∧
    (handleData
        ⟨VerifyStrategy.strict, VerifyStrategy.strict, VerifyStrategy.strict,
          true, true⟩ ⟨1, 1000⟩ emptyReportState 0
        ⟨"example.com", SpfResult.pass, "example.com",
          [⟨"example.com", DkimVerdict.pass⟩], ArcResult.fail,
          DnsLookup.notFound, Option.none, "10.0.0.1",
          ["jdoe@example.com"], []⟩).reply = ⟨550, 5, 7, 29⟩ ∧
    (handleData
        ⟨VerifyStrategy.strict, VerifyStrategy.strict, VerifyStrategy.strict,
          true, true⟩ ⟨1, 1000⟩ emptyReportState 0
        ⟨"example.com", SpfResult.pass, "example.com",
          [⟨"example.com", DkimVerdict.pass⟩], ArcResult.fail,
          DnsLookup.notFound, Option.none, "10.0.0.1",
          ["jdoe@example.com"], []⟩).queued = [] ∧
    (handleData
        ⟨VerifyStrategy.strict, VerifyStrategy.strict, VerifyStrategy.strict,
          true, true⟩ ⟨1, 1000⟩ emptyReportState 0
        ⟨"example.com", SpfResult.pass, "example.com",
          [⟨"example.com", DkimVerdict.pass⟩], ArcResult.fail,
          DnsLookup.notFound, Option.none, "10.0.0.1",
          ["jdoe@example.com"], []⟩).state = emptyReportState ∧
    ∀ k : ReportKind,
      k = ReportKind.spf ∨ k = ReportKind.dkim ∨ k = ReportKind.dmarc :=
  c8_arc_fail_reject_without_report
    ⟨VerifyStrategy.strict, VerifyStrategy.strict, VerifyStrategy.strict,
      true, true⟩
    ⟨"example.com", SpfResult.pass, "example.com",
      [⟨"example.com", DkimVerdict.pass⟩], ArcResult.fail,
      DnsLookup.notFound, Option.none, "10.0.0.1", ["jdoe@example.com"], []⟩
    ⟨1, 1000⟩ emptyReportState 0
    rfl rfl (Or.inl (by decide))

/-- Claim C9: a rate-limit denial affects only the reporting path, never
the accept/reject decision — for the same message the decision and the
SMTP reply are identical for any two limiter states and clock values (so a
message whose report kind is rate-limited gets the same rejection code as
when the report was allowed); only the report submission differs. -/
theorem c9_rate_limit_never_changes_decision
    (cfg : DataConfig) (strategy : VerifyStrategy) (rate : Rate)
    (stA stB : ReportState) (nowA nowB : Nat) (inp : DataInput)
    (lk : DnsLookup SpfRecord) (ip senderDomain : String) :
    (handleData cfg rate stA nowA inp).decision =
      (handleData cfg rate stB nowB inp).decision ∧
    (handleData cfg rate stA nowA inp).reply =
      (handleData cfg rate stB nowB inp).reply ∧
    (handleMailFrom strategy rate stA nowA lk ip senderDomain).decision =
      (handleMailFrom strategy rate stB nowB lk ip senderDomain).decision ∧
    (handleMailFrom strategy rate stA nowA lk ip senderDomain).reply =
      (handleMailFrom strategy rate stB nowB lk ip senderDomain).reply :=
  ⟨rfl, rfl, rfl, rfl⟩

/-- Claim C10: an accepted message, under a session configuration enabling
the trace headers, is handed to the outbound queue carrying an
`Authentication-Results` header that records the SPF, DKIM and DMARC
verdicts and a `Received-SPF` header matching the SPF verdict. -/
theorem c10_accepted_message_trace_headers
    (cfg : DataConfig) (inp : DataInput) (rate : Rate) (st : ReportState)
    (now : Nat) (m : QueuedMessage)
    (hauth : cfg.addAuthResults = true)
    (hspf : cfg.addReceivedSpf = true)
    (hout : (handleData cfg rate st now inp).outbound = some m) :
    "Authentication-Results" ∈ m.lines ∧
    ("spf=" ++ spfResultText inp.spfResult) ∈ m.lines ∧
    ("dkim=" ++ dkimVerdictText inp.dkim) ∈ m.lines ∧
    ("dmarc=" ++ dmarcVerdictText inp) ∈ m.lines ∧
    ("Received-SPF: " ++ spfResultText inp.spfResult) ∈ m.lines := by
  have hm : m = traceMessage cfg inp := by
    by_cases hacc : (evalData cfg inp).1 = Decision.accept
    · rw [handleData] at hout
      simp only [hacc, if_pos] at hout
      exact (Option.some.injEq _ _ ▸ hout).symm
    · rw [handleData] at hout
      simp [hacc] at hout
  subst hm
  refine ⟨?_, ?_, ?_, ?_, ?_⟩ <;> simp [traceMessage, hauth, hspf]

/-- Claim C10 witness: the theorem instantiated at the accepted test
message — all verdicts pass, both trace-header switches on. -/
theorem c10_accepted_message_trace_headers_witness :
    "Authentication-Results" ∈
      (traceMessage
        ⟨VerifyStrategy.strict, VerifyStrategy.strict, VerifyStrategy.strict,
          true, true⟩
        ⟨"example.com", SpfResult.pass, "example.com",
          [⟨"example.com", DkimVerdict.pass⟩], ArcResult.pass,
          DnsLookup.found
            ⟨DmarcPolicy.reject, some DmarcPolicy.quarantine,
              AlignmentMode.strict, AlignmentMode.strict,
              ["dmarc-feedback@example.com"], ["dmarc-failures@example.com"], 1⟩,
          some ⟨"dkim-failures"⟩, "10.0.0.1", ["jdoe@example.com"], []⟩).lines ∧
    ("spf=" ++ spfResultText SpfResult.pass) ∈
      (traceMessage
        ⟨VerifyStrategy.strict, VerifyStrategy.strict, VerifyStrategy.strict,
          true, true⟩
        ⟨"example.com", SpfResult.pass, "example.com",
          [⟨"example.com", DkimVerdict.pass⟩], ArcResult.pass,
          DnsLookup.found
            ⟨DmarcPolicy.reject, some DmarcPolicy.quarantine,
              AlignmentMode.strict, AlignmentMode.strict,
              ["dmarc-feedback@example.com"], ["dmarc-failures@example.com"], 1⟩,
          some ⟨"dkim-failures"⟩, "10.0.0.1", ["jdoe@example.com"], []⟩).lines ∧
    ("dkim=" ++ dkimVerdictText [⟨"example.com", DkimVerdict.pass⟩]) ∈
      (traceMessage
        ⟨VerifyStrategy.strict, VerifyStrategy.strict, VerifyStrategy.strict,
          true, true⟩
        ⟨"example.com", SpfResult.pass, "example.com",
          [⟨"example.com", DkimVerdict.pass⟩], ArcResult.pass,
          DnsLookup.found
            ⟨DmarcPolicy.reject, some DmarcPolicy.quarantine,
              AlignmentMode.strict, AlignmentMode.strict,
              ["dmarc-feedback@example.com"], ["dmarc-failures@example.com"], 1⟩,
          some ⟨"dkim-failures"⟩, "10.0.0.1", ["jdoe@example.com"], []⟩).lines ∧
    ("dmarc=" ++ dmarcVerdictText
        ⟨"example.com", SpfResult.pass, "example.com",
          [⟨"example.com", DkimVerdict.pass⟩], ArcResult.pass,
          DnsLookup.found
            ⟨DmarcPolicy.reject, some DmarcPolicy.quarantine,
              AlignmentMode.strict, AlignmentMode.strict,
              ["dmarc-feedback@example.com"], ["dmarc-failures@example.com"], 1⟩,
          some ⟨"dkim-failures"⟩, "10.0.0.1", ["jdoe@example.com"], []⟩) ∈
      (traceMessage
        ⟨VerifyStrategy.strict, VerifyStrategy.strict, VerifyStrategy.strict,
          true, true⟩
        ⟨"example.com", SpfResult.pass, "example.com",
          [⟨"example.com", DkimVerdict.pass⟩], ArcResult.pass,
          DnsLookup.found
            ⟨DmarcPolicy.reject, some DmarcPolicy.quarantine,
              AlignmentMode.strict, AlignmentMode.strict,
              ["dmarc-feedback@example.com"], ["dmarc-failures@example.com"], 1⟩,
          some ⟨"dkim-failures"⟩, "10.0.0.1", ["jdoe@example.com"], []⟩).lines ∧
    ("Received-SPF: " ++ spfResultText SpfResult.pass) ∈
      (traceMessage
        ⟨VerifyStrategy.strict, VerifyStrategy.strict, VerifyStrategy.strict,
          true, true⟩
        ⟨"example.com", SpfResult.pass, "example.com",
          [⟨"example.com", DkimVerdict.pass⟩], ArcResult.pass,
          DnsLookup.found
            ⟨DmarcPolicy.reject, some DmarcPolicy.quarantine,
              AlignmentMode.strict, AlignmentMode.strict,
              ["dmarc-feedback@example.com"], ["dmarc-failures@example.com"], 1⟩,
          some ⟨"dkim-failures"⟩, "10.0.0.1", ["jdoe@example.com"], []⟩).lines :=
  c10_accepted_message_trace_headers
    ⟨VerifyStrategy.strict, VerifyStrategy.strict, VerifyStrategy.strict,
      true, true⟩
    ⟨"example.com", SpfResult.pass, "example.com",
      [⟨"example.com", DkimVerdict.pass⟩], ArcResult.pass,
      DnsLookup.found
        ⟨DmarcPolicy.reject, some DmarcPolicy.quarantine, AlignmentMode.strict,
          AlignmentMode.strict, ["dmarc-feedback@example.com"],
          ["dmarc-failures@example.com"], 1⟩,
      some ⟨"dkim-failures"⟩, "10.0.0.1", ["jdoe@example.com"], []⟩
    ⟨1, 1000⟩ emptyReportState 0
    (traceMessage
      ⟨VerifyStrategy.strict, VerifyStrategy.strict, VerifyStrategy.strict,
        true, true⟩
      ⟨"example.com", SpfResult.pass, "example.com",
        [⟨"example.com", DkimVerdict.pass⟩], ArcResult.pass,
        DnsLookup.found
          ⟨DmarcPolicy.reject, some DmarcPolicy.quarantine,
            AlignmentMode.strict, AlignmentMode.strict,
            ["dmarc-feedback@example.com"], ["dmarc-failures@example.com"], 1⟩,
        some ⟨"dkim-failures"⟩, "10.0.0.1", ["jdoe@example.com"], []⟩)
    rfl rfl (by decide)

end Stalwart
